import Mathlib

/-!
Shallow embedding of `src/custom-controls.js` (a video.js custom-controls
plugin) and proofs about its control-state synchronization logic.

Modelling conventions:
- JS strings are `String`; an absent (`undefined`/`null`) icon name and the
  empty string are both falsy in the source, so a plain `String` with `""`
  covers both.
- The `fetch` transport is an oracle `FetchFn : String → Except String Response`
  mapping a path either to a thrown transport error or to a response with an
  `ok` flag, a status and a body, mirroring the fields the source reads.
- `async`/`await` code in which each awaited step completes before the next
  statement runs is embedded as sequential state-passing functions; a JS
  promise that is *not* awaited and later rejects is recorded explicitly
  (see `ClickResult.unhandledRejection`).
- Diagnostics written through `logIf` are collected in a `List String`.
- JS numbers used by the playback-rate stepper are embedded as `ℚ`; the
  values reached there (multiples of 1/4, times 100) are exact in binary
  floating point, so `ℚ` agrees with the double-precision evaluation.
-/

namespace CWDPlayer

/-- A fetch response as read by `loadSVG`: `res.ok`, `res.status`, `res.text()`. -/
structure Response where
  ok : Bool
  status : Nat
  body : String
deriving DecidableEq

/-- The transport oracle: `fetch(path)` either throws (transport error) or
returns a `Response`. -/
abbrev FetchFn := String → Except String Response

/-- `logIf(opts, msg)` from the source: emits the diagnostic only when the
`log` option is set. -/
def logIf (lg : Bool) (msg : String) : List String :=
  if lg then [msg] else []

/-- The body of `loadSVG` before its `catch`: awaits `fetch`, throws
`HTTP status` on a non-ok response, otherwise returns the body text. -/
def loadSVGTry (fetchFn : FetchFn) (path : String) : Except String String :=
  match fetchFn path with
  | Except.error e => Except.error e
  | Except.ok res =>
      if !res.ok then Except.error ("HTTP " ++ toString res.status)
      else Except.ok res.body

/-- `loadSVG(path, opts)` from the source: the `try`/`catch` around
`loadSVGTry`; any failure is logged (when enabled) and turned into `null`
(`none`), success returns the markup. Result: (returned value, diagnostics). -/
def loadSVG (fetchFn : FetchFn) (path : String) (lg : Bool) :
    Option String × List String :=
  match loadSVGTry fetchFn path with
  | Except.error _ => (none, logIf lg ("Failed to load SVG: " ++ path))
  | Except.ok t => (some t, [])

/-- Rendered content of a button element: empty, mounted SVG markup inside the
wrapper span, or plain `textContent` fallback. -/
inductive Content where
  | empty : Content
  | svg : String → Content
  | text : String → Content
deriving DecidableEq

/-- The state of an `SVGIconButton` that `updateIcon` reads and writes:
`opts.label` (`""` when absent, JS-falsy), `currentIcon` (initially `null`),
the element's rendered content, `opts.iconBasePath` and `opts.log`. -/
structure SVGIconButton where
  label : String
  currentIcon : Option String
  content : Content
  iconBasePath : String
  optsLog : Bool
deriving DecidableEq

/-- `SVGIconButton.updateIcon(iconName)` from the source:

* `if (!iconName || iconName === this.currentIcon) return;` — no-op;
* otherwise `currentIcon := iconName` (synchronously, before the load),
  the path is built, `loadSVG` is awaited;
* a falsy result (`null` or `""`) renders `this.opts?.label || iconName`
  as `textContent`; a truthy result mounts the markup via `setButtonSVG`.

Returns (new button state, list of asset paths requested from the transport).
-/
def updateIcon (fetchFn : FetchFn) (b : SVGIconButton) (iconName : String) :
    SVGIconButton × List String :=
  if iconName = "" ∨ b.currentIcon = some iconName then (b, [])
  else
    let b1 : SVGIconButton := { b with currentIcon := some iconName }
    let path := b.iconBasePath ++ "/" ++ iconName ++ ".svg"
    match (loadSVG fetchFn path b.optsLog).1 with
    | none =>
        ({ b1 with content := Content.text (if b.label = "" then iconName else b.label) },
         [path])
    | some s =>
        if s = "" then
          ({ b1 with content := Content.text (if b.label = "" then iconName else b.label) },
           [path])
        else
          ({ b1 with content := Content.svg s }, [path])

/-- One invocation of a configured `onClick` callback, as observed at the
dispatch boundary: it may return normally, throw synchronously, or return a
promise that later rejects (an `async` callback whose body rejects). -/
inductive CallbackOutcome where
  | ok : CallbackOutcome
  | thrown : String → CallbackOutcome
  | rejected : String → CallbackOutcome
deriving DecidableEq

/-- Observable outcome of one `handleClick` dispatch: an exception propagated
to the caller (if any), the diagnostics emitted, and a promise rejection that
escaped the dispatch uncaught (if any). -/
structure ClickResult where
  raisedToCaller : Option String
  log : List String
  unhandledRejection : Option String
deriving DecidableEq

/-- `SVGIconButton.handleClick()` from the source: when a callback is
configured it is invoked inside `try { this.opts.onClick.call(...) } catch`.
The `catch` intercepts a synchronous throw and logs it; the call is *not*
awaited, so a rejected promise from an async callback passes through the
`try`/`catch` untouched and becomes an unhandled rejection. -/
def handleClick (onClick : Option CallbackOutcome) (lg : Bool) : ClickResult :=
  match onClick with
  | none => ⟨none, [], none⟩
  | some CallbackOutcome.ok => ⟨none, [], none⟩
  | some (CallbackOutcome.thrown _) => ⟨none, logIf lg ("onClick error"), none⟩
  | some (CallbackOutcome.rejected e) => ⟨none, [], some e⟩

/-- `volumeIconFor(player)` from the source, as the pure function of the two
player queries it reads: `muted()` and `volume()`. -/
def volumeIconFor (muted : Bool) (volume : ℚ) : String :=
  if muted = true ∨ volume = 0 then "audio_mute"
  else if volume ≤ 33/100 then "audio_low"
  else if volume ≤ 66/100 then "audio_mid"
  else "audio_full"

/-- Rendered state of the player's `BigPlayButton` overlay: `none` when the
player has no such child; `some c` is the child's current content. -/
structure OverlayState where
  big : Option Content
deriving DecidableEq

/-- `setBigOverlaySVG(player, iconBasePath, name)` from the source: returns
immediately when the player has no `BigPlayButton` child; loads the asset with
logging disabled (`{ log: false }`); on a falsy result returns with the
previous markup intact; on success clears the element and mounts the markup. -/
def setBigOverlaySVG (fetchFn : FetchFn) (iconBasePath name : String)
    (s : OverlayState) : OverlayState :=
  match s.big with
  | none => s
  | some _ =>
      match (loadSVG fetchFn (iconBasePath ++ "/" ++ name ++ ".svg") false).1 with
      | none => s
      | some svg =>
          if svg = "" then s
          else { big := some (Content.svg svg) }

/-- A DOM element as seen by `ensureSettingsMenu`: only its class list is
queried (`querySelector('.vjs-settings-menu')` and `classList`). -/
structure Elem where
  classes : List String
deriving DecidableEq

/-- The player's root element: its list of child elements, in document order. -/
structure PlayerRoot where
  children : List Elem
deriving DecidableEq

/-- The `div.vjs-settings-menu.hidden` element the source creates. -/
def settingsMenuElem : Elem :=
  { classes := ["vjs-settings-menu", "hidden"] }

/-- `player.el().querySelector('.vjs-settings-menu')`: the first child carrying
the marker class. -/
def querySettingsMenu (p : PlayerRoot) : Option Elem :=
  p.children.find? (fun e => e.classes.contains ("vjs-settings-menu"))

/-- `ensureSettingsMenu(player)` from the source: queries for the marker
class; when absent, creates the menu element and appends it to the player's
root; returns the (found or created) menu together with the updated root. -/
def ensureSettingsMenu (p : PlayerRoot) : Elem × PlayerRoot :=
  match querySettingsMenu p with
  | some menu => (menu, p)
  | none => (settingsMenuElem, { children := p.children ++ [settingsMenuElem] })

/-- `Math.round` of JavaScript on a real input: round half toward positive
infinity, i.e. `⌊q + 1/2⌋`. -/
def jsRound (q : ℚ) : ℤ :=
  ⌊q + 1/2⌋

/-- The rate computation in the settings menu's `playbackRate` click handler:
`current >= 2 ? 1 : Math.round((current + 0.25) * 100) / 100`. -/
def nextRate (current : ℚ) : ℚ :=
  if current ≥ 2 then 1 else (jsRound ((current + 1/4) * 100) : ℚ) / 100

/-- The two locations the `playbackRate` handler writes: the host player's
rate (`player.playbackRate(next)`) and the numeric value rendered in the
panel's value span (`textContent = next + 'x'`). -/
structure SettingsPanelState where
  playerRate : ℚ
  panelValue : ℚ
deriving DecidableEq

/-- One click on the settings panel's `playbackRate` row: computes `next`
from the player's current rate and writes that same value to both the
player's rate and the panel's displayed value. -/
def rateItemClick (s : SettingsPanelState) : SettingsPanelState :=
  let next := nextRate s.playerRate
  { playerRate := next, panelValue := next }

/-- The global picture-in-picture platform state and the outcomes of its two
fallible calls, as read by `enterPiP`/`exitPiP`:
`document.pictureInPictureElement` (page-wide singleton, `some id` when an
element is in PiP), `document.pictureInPictureEnabled`, whether the video
element has a `requestPictureInPicture` method, and the results of invoking
`requestPictureInPicture` / `exitPictureInPicture`. -/
structure PiPEnv where
  pictureInPictureElement : Option String
  pictureInPictureEnabled : Bool
  hasRequestPiP : Bool
  requestResult : Except String Unit
  exitResult : Except String Unit

/-- `enterPiP(videoEl)` from the source: returns when an element is already
in PiP; when the platform is enabled and the element has the request method,
awaits the request (which may reject); otherwise throws
`Picture-in-Picture not supported`. -/
def enterPiP (env : PiPEnv) : Except String Unit :=
  if env.pictureInPictureElement.isSome then Except.ok ()
  else if env.pictureInPictureEnabled = true ∧ env.hasRequestPiP = true then
    env.requestResult
  else Except.error ("Picture-in-Picture not supported")

/-- `exitPiP()` from the source: awaits `exitPictureInPicture` only when an
element is currently in PiP. -/
def exitPiP (env : PiPEnv) : Except String Unit :=
  if env.pictureInPictureElement.isSome then env.exitResult
  else Except.ok ()

/-- The PiP button's `onClick` from the source: reads
`!!document.pictureInPictureElement`; exits or enters inside `try`/`catch`;
flips the icon (`pip` / `pip_exit`) only after the awaited call succeeds; on
any failure logs `PiP error` and leaves the button untouched.
Returns (new button state, diagnostics). -/
def pipOnClick (fetchFn : FetchFn) (env : PiPEnv) (b : SVGIconButton) :
    SVGIconButton × List String :=
  if env.pictureInPictureElement.isSome then
    match exitPiP env with
    | Except.error _ => (b, logIf b.optsLog ("PiP error"))
    | Except.ok _ => ((updateIcon fetchFn b ("pip")).1, [])
  else
    match enterPiP env with
    | Except.error _ => (b, logIf b.optsLog ("PiP error"))
    | Except.ok _ => ((updateIcon fetchFn b ("pip_exit")).1, [])

/-- One invocation of a promise-returning host call
(`requestFullscreen()` / `exitFullscreen()`): it may succeed, throw
synchronously, or return a promise that later rejects. -/
inductive HostCallOutcome where
  | ok : HostCallOutcome
  | thrown : String → HostCallOutcome
  | rejected : String → HostCallOutcome
deriving DecidableEq

/-- The host player's fullscreen surface as the fullscreen button reads it:
the `isFullscreen()` flag and the outcomes of `requestFullscreen()` /
`exitFullscreen()` if invoked on this click. -/
structure FsHost where
  isFullscreen : Bool
  requestOutcome : HostCallOutcome
  exitOutcome : HostCallOutcome

/-- Observable outcome of one fullscreen-button click: the button state after
the handler ran, the diagnostics emitted, and a promise rejection that escaped
the handler uncaught (if any). -/
structure FsClickResult where
  button : SVGIconButton
  log : List String
  unhandledRejection : Option String
deriving DecidableEq

/-- The fullscreen button's `onClick` from the source: inside `try`/`catch`,
`p.exitFullscreen(); this.updateIcon('full')` or
`p.requestFullscreen(); this.updateIcon('full_exit')`; on a failure the
`catch` logs `Fullscreen error`. The host calls are *not* awaited in this
non-async handler, so only a synchronous throw reaches the `catch` and skips
the icon flip; a returned promise that later rejects does not stop the flip
line, which has already run by the time the rejection lands, and the
rejection escapes the `try`/`catch` as an unhandled rejection. -/
def fsOnClick (fetchFn : FetchFn) (host : FsHost) (b : SVGIconButton) :
    FsClickResult :=
  if host.isFullscreen then
    match host.exitOutcome with
    | HostCallOutcome.thrown _ => ⟨b, logIf b.optsLog ("Fullscreen error"), none⟩
    | HostCallOutcome.ok => ⟨(updateIcon fetchFn b ("full")).1, [], none⟩
    | HostCallOutcome.rejected e => ⟨(updateIcon fetchFn b ("full")).1, [], some e⟩
  else
    match host.requestOutcome with
    | HostCallOutcome.thrown _ => ⟨b, logIf b.optsLog ("Fullscreen error"), none⟩
    | HostCallOutcome.ok => ⟨(updateIcon fetchFn b ("full_exit")).1, [], none⟩
    | HostCallOutcome.rejected e => ⟨(updateIcon fetchFn b ("full_exit")).1, [], some e⟩

/-! ## Helper lemmas -/

/-- The dedup guard of `updateIcon`: an empty name, or a name equal to
`currentIcon`, returns the button unchanged with no request. -/
theorem updateIcon_noop (f : FetchFn) (b : SVGIconButton) (n : String)
    (h : n = "" ∨ b.currentIcon = some n) :
    updateIcon f b n = (b, []) := by
  unfold updateIcon
  rw [if_pos h]

/-- When the dedup guard does not fire, `updateIcon` sets `currentIcon` to the
new name (in every load-outcome branch) and issues exactly one asset request,
for the path built from the base path and the name. -/
theorem updateIcon_effective (f : FetchFn) (b : SVGIconButton) (n : String)
    (h : ¬(n = "" ∨ b.currentIcon = some n)) :
    (updateIcon f b n).1.currentIcon = some n ∧
    (updateIcon f b n).2 = [b.iconBasePath ++ "/" ++ n ++ ".svg"] := by
  unfold updateIcon
  rw [if_neg h]
  dsimp only
  cases hload : (loadSVG f (b.iconBasePath ++ "/" ++ n ++ ".svg") b.optsLog).1 with
  | none => simp
  | some s =>
      by_cases hs : s = "" <;> simp [hs]

/-! ## Claim theorems -/

/-- C2: the volume icon is a pure function of `(muted, volume)`: `audio_mute`
when muted or the volume is zero; else `audio_low` on `(0, 0.33]`, `audio_mid`
on `(0.33, 0.66]`, `audio_full` above `0.66`; the boundary values `0`, `0.33`,
`0.66`, `1.0` land in the buckets the four-way conditional assigns them. -/
theorem volumeIconFor_bucket_table (m : Bool) (v : ℚ) :
    ((m = true ∨ v = 0) → volumeIconFor m v = "audio_mute") ∧
    (m = false → 0 < v → v ≤ 33/100 → volumeIconFor m v = "audio_low") ∧
    (m = false → 33/100 < v → v ≤ 66/100 → volumeIconFor m v = "audio_mid") ∧
    (m = false → 66/100 < v → volumeIconFor m v = "audio_full") ∧
    volumeIconFor false 0 = "audio_mute" ∧
    volumeIconFor false (33/100) = "audio_low" ∧
    volumeIconFor false (66/100) = "audio_mid" ∧
    volumeIconFor false 1 = "audio_full" := by
  refine ⟨?_, ?_, ?_, ?_, by norm_num [volumeIconFor], by norm_num [volumeIconFor],
    by norm_num [volumeIconFor], by norm_num [volumeIconFor]⟩
  · intro h
    unfold volumeIconFor
    rw [if_pos h]
  · intro hm h0 h1
    unfold volumeIconFor
    rw [if_neg (by simp [hm, h0.ne'])]
    rw [if_pos h1]
  · intro hm h2 h3
    unfold volumeIconFor
    rw [if_neg (by simp [hm]; linarith)]
    rw [if_neg (not_le.mpr h2)]
    rw [if_pos h3]
  · intro hm h4
    unfold volumeIconFor
    rw [if_neg (by simp [hm]; linarith)]
    rw [if_neg (by push_neg; linarith)]
    rw [if_neg (not_le.mpr h4)]

/-- Witness for C2 at the concrete pair `(muted := false, volume := 1/2)`. -/
theorem volumeIconFor_bucket_table_witness :
    volumeIconFor false (1/2) = "audio_mid" :=
  (volumeIconFor_bucket_table false (1/2)).2.2.1 rfl (by norm_num) (by norm_num)

/-- C4: `loadSVG` never raises: on a thrown transport error or a non-ok
response it returns `null`, with the diagnostic emitted exactly when logging
is enabled; on an ok response it returns the fetched markup with no
diagnostic. -/
theorem loadSVG_total_contract (f : FetchFn) (path : String) (lg : Bool) :
    (∀ e, f path = Except.error e →
      loadSVG f path lg =
        (none, if lg then [("Failed to load SVG: " ++ path)] else [])) ∧
    (∀ r, f path = Except.ok r → r.ok = false →
      loadSVG f path lg =
        (none, if lg then [("Failed to load SVG: " ++ path)] else [])) ∧
    (∀ r, f path = Except.ok r → r.ok = true →
      loadSVG f path lg = (some r.body, [])) := by
  refine ⟨?_, ?_, ?_⟩
  · intro e he
    unfold loadSVG loadSVGTry
    rw [he]
    rfl
  · intro r hr hok
    unfold loadSVG loadSVGTry
    rw [hr]
    simp [hok, logIf]
  · intro r hr hok
    unfold loadSVG loadSVGTry
    rw [hr]
    simp [hok]

/-- Witness for C4 on a concrete failing transport. -/
theorem loadSVG_total_contract_witness :
    loadSVG (fun _ => Except.error ("net down")) ("/img/icon/play.svg") true =
      (none, if true then [("Failed to load SVG: " ++ "/img/icon/play.svg")] else []) :=
  (loadSVG_total_contract (fun _ => Except.error ("net down"))
    ("/img/icon/play.svg") true).1 ("net down") rfl

/-- C1: `updateIcon` with an empty name or a name equal to `currentIcon`
returns immediately with the button state unchanged and no asset request; and
two consecutive calls with the same name issue at most one asset request. -/
theorem updateIcon_identity_dedup (f : FetchFn) (b : SVGIconButton) (n : String) :
    ((n = "" ∨ b.currentIcon = some n) → updateIcon f b n = (b, [])) ∧
    ((updateIcon f b n).2 ++ (updateIcon f (updateIcon f b n).1 n).2).length ≤ 1 := by
  constructor
  · exact updateIcon_noop f b n
  · by_cases h : n = "" ∨ b.currentIcon = some n
    · simp [updateIcon_noop f b n h]
    · obtain ⟨hcur, hreq⟩ := updateIcon_effective f b n h
      have h2 : updateIcon f (updateIcon f b n).1 n = ((updateIcon f b n).1, []) :=
        updateIcon_noop f (updateIcon f b n).1 n (Or.inr hcur)
      rw [hreq, h2]
      simp

/-- Witness for C1: a repeated name is a no-op on a concrete button. -/
theorem updateIcon_identity_dedup_witness :
    updateIcon (fun _ => Except.error ("net down"))
      { label := ("Play/Pause"), currentIcon := some ("play"),
        content := Content.empty, iconBasePath := ("/img/icon"),
        optsLog := false } ("play") =
      ({ label := ("Play/Pause"), currentIcon := some ("play"),
         content := Content.empty, iconBasePath := ("/img/icon"),
         optsLog := false }, []) :=
  (updateIcon_identity_dedup (fun _ => Except.error ("net down")) _ ("play")).1
    (Or.inr rfl)

/-- C5: when the name is non-empty and different from `currentIcon` and the
load fails (`null`), `updateIcon` renders the configured label (or the icon
name when the label is absent) as plain text, and that text is non-empty. -/
theorem updateIcon_failure_fallback (f : FetchFn) (b : SVGIconButton) (n : String)
    (hn : ¬ n = "") (hcur : ¬ b.currentIcon = some n)
    (hfail : (loadSVG f (b.iconBasePath ++ "/" ++ n ++ ".svg") b.optsLog).1 = none) :
    (updateIcon f b n).1.content =
      Content.text (if b.label = "" then n else b.label) ∧
    ¬ (if b.label = "" then n else b.label) = "" := by
  constructor
  · unfold updateIcon
    rw [if_neg (by tauto)]
    dsimp only
    rw [hfail]
  · split
    · exact hn
    · assumption

/-- Witness for C5: a concrete unlabelled button falls back to the icon name. -/
theorem updateIcon_failure_fallback_witness :
    (updateIcon (fun _ => Except.error ("net down"))
      { label := (""), currentIcon := none, content := Content.empty,
        iconBasePath := ("/img/icon"), optsLog := false } ("stop")).1.content =
      Content.text (if ("") = "" then ("stop") else ("")) ∧
    ¬ (if ("") = "" then ("stop") else ("")) = "" :=
  updateIcon_failure_fallback (fun _ => Except.error ("net down"))
    { label := (""), currentIcon := none, content := Content.empty,
      iconBasePath := ("/img/icon"), optsLog := false } ("stop")
    (by decide) (by decide) rfl

/-- C3 counterexample: a configured async callback whose promise rejects is
*not* caught at the dispatch boundary — `handleClick` does not await the call,
so even with logging enabled nothing is logged and the rejection escapes as an
unhandled rejection. -/
theorem handleClick_rejection_escapes :
    (handleClick (some (CallbackOutcome.rejected ("boom"))) true).unhandledRejection =
      some ("boom") ∧
    (handleClick (some (CallbackOutcome.rejected ("boom"))) true).log = [] :=
  ⟨rfl, rfl⟩

/-- C3 (amended): `handleClick` never propagates an exception to its caller;
a synchronous throw from the callback is caught, logged (when logging is
enabled) and swallowed; but a rejection from an async callback is not awaited,
so it escapes the `try`/`catch` as an unhandled rejection without a log entry. -/
theorem handleClick_sync_catch (cb : Option CallbackOutcome) (lg : Bool) :
    (handleClick cb lg).raisedToCaller = none ∧
    (∀ e, cb = some (CallbackOutcome.thrown e) →
      (handleClick cb lg).unhandledRejection = none ∧
      (handleClick cb lg).log = logIf lg ("onClick error")) ∧
    (∀ e, cb = some (CallbackOutcome.rejected e) →
      (handleClick cb lg).unhandledRejection = some e ∧
      (handleClick cb lg).log = []) := by
  refine ⟨?_, ?_, ?_⟩
  · cases cb with
    | none => rfl
    | some c => cases c <;> rfl
  · intro e he
    subst he
    exact ⟨rfl, rfl⟩
  · intro e he
    subst he
    exact ⟨rfl, rfl⟩

/-- Witness for the amended C3 at a concrete synchronously-throwing callback. -/
theorem handleClick_sync_catch_witness :
    (handleClick (some (CallbackOutcome.thrown ("boom"))) true).unhandledRejection =
      none ∧
    (handleClick (some (CallbackOutcome.thrown ("boom"))) true).log =
      logIf true ("onClick error") :=
  (handleClick_sync_catch (some (CallbackOutcome.thrown ("boom"))) true).2.1
    ("boom") rfl

/-- C6 counterexample: a `requestFullscreen` call that returns a promise which
later rejects is *not* caught — the handler does not await it, so the flip to
`full_exit` has already run when the rejection lands: the icon is changed from
its pre-click value `full`, nothing is logged even with logging enabled, and
the rejection escapes as an unhandled rejection. -/
theorem fsOnClick_rejection_flips_icon :
    (fsOnClick (fun _ => Except.error ("net down"))
      { isFullscreen := false, requestOutcome := HostCallOutcome.rejected ("denied"),
        exitOutcome := HostCallOutcome.ok }
      { label := ("Fullscreen"), currentIcon := some ("full"),
        content := Content.empty, iconBasePath := ("/img/icon"),
        optsLog := true }).button.currentIcon = some ("full_exit") ∧
    (fsOnClick (fun _ => Except.error ("net down"))
      { isFullscreen := false, requestOutcome := HostCallOutcome.rejected ("denied"),
        exitOutcome := HostCallOutcome.ok }
      { label := ("Fullscreen"), currentIcon := some ("full"),
        content := Content.empty, iconBasePath := ("/img/icon"),
        optsLog := true }).log = [] ∧
    (fsOnClick (fun _ => Except.error ("net down"))
      { isFullscreen := false, requestOutcome := HostCallOutcome.rejected ("denied"),
        exitOutcome := HostCallOutcome.ok }
      { label := ("Fullscreen"), currentIcon := some ("full"),
        content := Content.empty, iconBasePath := ("/img/icon"),
        optsLog := true }).unhandledRejection = some ("denied") :=
  ⟨rfl, rfl, rfl⟩

/-- C6 (amended): only a *synchronous* throw from `requestFullscreen` (or
`exitFullscreen`) is caught and logged (per the logging flag) with the button
left in its pre-click state; when the call does not throw synchronously the
icon flip to `full_exit` (resp. `full`) executes — including when the call
returned a promise that later rejects, in which case the flip has already run
and the rejection escapes the handler uncaught and unlogged. -/
theorem fsOnClick_throw_caught_rejection_escapes (f : FetchFn) (host : FsHost)
    (b : SVGIconButton) :
    (∀ e, host.isFullscreen = false → host.requestOutcome = HostCallOutcome.thrown e →
      fsOnClick f host b = ⟨b, logIf b.optsLog ("Fullscreen error"), none⟩) ∧
    (∀ e, host.isFullscreen = true → host.exitOutcome = HostCallOutcome.thrown e →
      fsOnClick f host b = ⟨b, logIf b.optsLog ("Fullscreen error"), none⟩) ∧
    (host.isFullscreen = false → host.requestOutcome = HostCallOutcome.ok →
      fsOnClick f host b = ⟨(updateIcon f b ("full_exit")).1, [], none⟩) ∧
    (host.isFullscreen = true → host.exitOutcome = HostCallOutcome.ok →
      fsOnClick f host b = ⟨(updateIcon f b ("full")).1, [], none⟩) ∧
    (∀ e, host.isFullscreen = false → host.requestOutcome = HostCallOutcome.rejected e →
      fsOnClick f host b = ⟨(updateIcon f b ("full_exit")).1, [], some e⟩) ∧
    (∀ e, host.isFullscreen = true → host.exitOutcome = HostCallOutcome.rejected e →
      fsOnClick f host b = ⟨(updateIcon f b ("full")).1, [], some e⟩) := by
  refine ⟨?_, ?_, ?_, ?_, ?_, ?_⟩
  · intro e hfs hc
    unfold fsOnClick
    simp [hfs, hc]
  · intro e hfs hc
    unfold fsOnClick
    simp [hfs, hc]
  · intro hfs hc
    unfold fsOnClick
    simp [hfs, hc]
  · intro hfs hc
    unfold fsOnClick
    simp [hfs, hc]
  · intro e hfs hc
    unfold fsOnClick
    simp [hfs, hc]
  · intro e hfs hc
    unfold fsOnClick
    simp [hfs, hc]

/-- Witness for the amended C6 at a concrete synchronously-throwing
`requestFullscreen`: caught, logged, button untouched. -/
theorem fsOnClick_throw_caught_rejection_escapes_witness :
    fsOnClick (fun _ => Except.error ("net down"))
      { isFullscreen := false, requestOutcome := HostCallOutcome.thrown ("denied"),
        exitOutcome := HostCallOutcome.ok }
      { label := ("Fullscreen"), currentIcon := some ("full"),
        content := Content.empty, iconBasePath := ("/img/icon"),
        optsLog := true } =
      ⟨{ label := ("Fullscreen"), currentIcon := some ("full"),
         content := Content.empty, iconBasePath := ("/img/icon"),
         optsLog := true }, logIf true ("Fullscreen error"), none⟩ :=
  (fsOnClick_throw_caught_rejection_escapes (fun _ => Except.error ("net down"))
    { isFullscreen := false, requestOutcome := HostCallOutcome.thrown ("denied"),
      exitOutcome := HostCallOutcome.ok }
    { label := ("Fullscreen"), currentIcon := some ("full"),
      content := Content.empty, iconBasePath := ("/img/icon"),
      optsLog := true }).1 ("denied") rfl rfl

/-- C7: with no element in PiP and the platform unsupported (PiP disabled or
no request method), `enterPiP` throws the explicit unsupported error; the PiP
button's click catches it, logs `PiP error` per the logging flag, and leaves
the button — in particular its icon — unchanged. -/
theorem pip_unsupported_caught (f : FetchFn) (env : PiPEnv) (b : SVGIconButton)
    (hno : env.pictureInPictureElement = none)
    (hunsup : env.pictureInPictureEnabled = false ∨ env.hasRequestPiP = false) :
    enterPiP env = Except.error ("Picture-in-Picture not supported") ∧
    pipOnClick f env b = (b, logIf b.optsLog ("PiP error")) := by
  have h1 : enterPiP env = Except.error ("Picture-in-Picture not supported") := by
    unfold enterPiP
    rcases hunsup with h | h <;> simp [hno, h]
  refine ⟨h1, ?_⟩
  unfold pipOnClick
  simp [hno, h1]

/-- Witness for C7 on a concrete unsupported platform. -/
theorem pip_unsupported_caught_witness :
    enterPiP
      { pictureInPictureElement := none, pictureInPictureEnabled := false,
        hasRequestPiP := false, requestResult := Except.ok (),
        exitResult := Except.ok () } =
      Except.error ("Picture-in-Picture not supported") ∧
    pipOnClick (fun _ => Except.error ("net down"))
      { pictureInPictureElement := none, pictureInPictureEnabled := false,
        hasRequestPiP := false, requestResult := Except.ok (),
        exitResult := Except.ok () }
      { label := ("Picture-in-Picture"), currentIcon := some ("pip"),
        content := Content.empty, iconBasePath := ("/img/icon"),
        optsLog := true } =
      ({ label := ("Picture-in-Picture"), currentIcon := some ("pip"),
         content := Content.empty, iconBasePath := ("/img/icon"),
         optsLog := true }, logIf true ("PiP error")) :=
  pip_unsupported_caught (fun _ => Except.error ("net down"))
    { pictureInPictureElement := none, pictureInPictureEnabled := false,
      hasRequestPiP := false, requestResult := Except.ok (),
      exitResult := Except.ok () }
    { label := ("Picture-in-Picture"), currentIcon := some ("pip"),
      content := Content.empty, iconBasePath := ("/img/icon"),
      optsLog := true } rfl (Or.inl rfl)

/-- C8: one `playbackRate` click writes one and the same value to the player's
rate and the panel's displayed value; that value is `1` when the current rate
is at least `2`, and otherwise `current + 0.25` rounded to two decimals (which
is exactly `current + 0.25` whenever that product is a whole number of
hundredths); from rate `1.0` the successive steps are
`1.25, 1.5, 1.75, 2.0`, then wrap to `1.0`, and a sixth step gives `1.25`. -/
theorem rate_stepper_spec (s : SettingsPanelState) :
    (rateItemClick s).playerRate = (rateItemClick s).panelValue ∧
    (s.playerRate ≥ 2 → (rateItemClick s).playerRate = 1) ∧
    (s.playerRate < 2 →
      (rateItemClick s).playerRate = (jsRound ((s.playerRate + 1/4) * 100) : ℚ) / 100) ∧
    (s.playerRate < 2 → ((s.playerRate + 1/4) * 100 : ℚ).den = 1 →
      (rateItemClick s).playerRate = s.playerRate + 1/4) ∧
    nextRate 1 = 5/4 ∧ nextRate (5/4) = 3/2 ∧ nextRate (3/2) = 7/4 ∧
    nextRate (7/4) = 2 ∧ nextRate 2 = 1 ∧ nextRate (nextRate 2) = 5/4 := by
  refine ⟨rfl, ?_, ?_, ?_, by norm_num [nextRate, jsRound], by norm_num [nextRate, jsRound],
    by norm_num [nextRate, jsRound], by norm_num [nextRate, jsRound],
    by norm_num [nextRate], by norm_num [nextRate, jsRound]⟩
  · intro h
    simp [rateItemClick, nextRate, h]
  · intro h
    simp [rateItemClick, nextRate, not_le.mpr h]
  · intro h hden
    have hq : (((s.playerRate + 1/4) * 100 : ℚ).num : ℚ) = (s.playerRate + 1/4) * 100 :=
      (Rat.den_eq_one_iff _).mp hden
    have hfl : jsRound ((s.playerRate + 1/4) * 100) = ((s.playerRate + 1/4) * 100 : ℚ).num := by
      unfold jsRound
      rw [← hq, Int.floor_int_add]
      norm_num
    show nextRate s.playerRate = s.playerRate + 1/4
    unfold nextRate
    rw [if_neg (not_le.mpr h), hfl, hq]
    ring

/-- Witness for C8: stepping from a concrete rate `2` wraps to `1`. -/
theorem rate_stepper_spec_witness :
    (rateItemClick { playerRate := 2, panelValue := 2 }).playerRate = 1 :=
  (rate_stepper_spec { playerRate := 2, panelValue := 2 }).2.1 (by norm_num)

/-- C9: `ensureSettingsMenu` is idempotent: when a marker element already
exists it is returned with the root unchanged (no creation), and after any
call a second call returns the same menu and the same root. -/
theorem ensureSettingsMenu_idempotent (p : PlayerRoot) :
    (∀ m, querySettingsMenu p = some m → ensureSettingsMenu p = (m, p)) ∧
    ensureSettingsMenu (ensureSettingsMenu p).2 = ensureSettingsMenu p := by
  constructor
  · intro m hm
    unfold ensureSettingsMenu
    rw [hm]
  · cases hq : querySettingsMenu p with
    | some m =>
        have h1 : ensureSettingsMenu p = (m, p) := by
          unfold ensureSettingsMenu
          rw [hq]
        simp [h1]
    | none =>
        have h1 : ensureSettingsMenu p =
            (settingsMenuElem, { children := p.children ++ [settingsMenuElem] }) := by
          unfold ensureSettingsMenu
          rw [hq]
        have h2 : querySettingsMenu { children := p.children ++ [settingsMenuElem] } =
            some settingsMenuElem := by
          unfold querySettingsMenu at hq ⊢
          rw [List.find?_append, hq]
          rfl
        rw [h1]
        unfold ensureSettingsMenu
        rw [h2]

/-- Witness for C9: on a root that already holds the menu, `ensure` returns it
without appending. -/
theorem ensureSettingsMenu_idempotent_witness :
    ensureSettingsMenu { children := [settingsMenuElem] } =
      (settingsMenuElem, { children := [settingsMenuElem] }) :=
  (ensureSettingsMenu_idempotent { children := [settingsMenuElem] }).1
    settingsMenuElem rfl

/-- C10: `setBigOverlaySVG` leaves the overlay exactly as it was — previous
markup kept, no text fallback — when the player has no `BigPlayButton` child
or when the asset load returns `null`. -/
theorem setBigOverlaySVG_failure_keeps_content (f : FetchFn) (base name : String)
    (s : OverlayState) :
    (s.big = none → setBigOverlaySVG f base name s = s) ∧
    ((loadSVG f (base ++ "/" ++ name ++ ".svg") false).1 = none →
      setBigOverlaySVG f base name s = s) := by
  constructor
  · intro h
    unfold setBigOverlaySVG
    rw [h]
  · intro h
    unfold setBigOverlaySVG
    cases hb : s.big with
    | none => rfl
    | some c => rw [h]

/-- Witness for C10: a failing transport leaves concrete overlay markup intact. -/
theorem setBigOverlaySVG_failure_keeps_content_witness :
    setBigOverlaySVG (fun _ => Except.error ("net down")) ("/img/icon") ("bigpause")
      { big := some (Content.svg ("old-markup")) } =
      { big := some (Content.svg ("old-markup")) } :=
  (setBigOverlaySVG_failure_keeps_content (fun _ => Except.error ("net down"))
    ("/img/icon") ("bigpause") { big := some (Content.svg ("old-markup")) }).2 rfl

end CWDPlayer
